import Mathlib

/-!
Verification of the candidate-verification-app risk-scoring core.

The Python sources (backend/app.py, backend/verification/resume_analyzer.py,
backend/verification/ai_detector.py, backend/verification/online_presence.py)
are shallowly embedded below.  Résumé text is modeled as `List Char`
(Python `str`), scores as `ℚ` (exact model of Python float arithmetic), and
the AI-detector's standard deviation as `Real.sqrt` over the exact rational
variance (the source computes `variance ** 0.5` on floats).  Python dicts
whose key sets matter are modeled as association lists of `String × PyVal`.
-/

namespace CandidateCheck

/-! ## Text primitives (Python `str` operations over `List Char`) -/

/-- Python whitespace characters (as used by `str.strip`, `str.split`, `\s`). -/
def isPySpace (c : Char) : Bool :=
  c = ' ' || c = '\t' || c = '\n' || c = '\r' || c = '\x0b' || c = '\x0c'

/-- Python `\w` word character; ASCII model (the résumés analyzed are ASCII). -/
def isWordChar (c : Char) : Bool := c.isAlphanum || c = '_'

/-- Python `str.lower` (ASCII model). -/
def lowerText (t : List Char) : List Char := t.map Char.toLower

/-- Python `str.strip()`: drop whitespace from both ends. -/
def strip (t : List Char) : List Char :=
  ((t.dropWhile isPySpace).reverse.dropWhile isPySpace).reverse

/-- Helper `startsWith needle hay`: `needle` is a prefix of `hay`. -/
def startsWith : List Char → List Char → Bool
  | [], _ => true
  | _ :: _, [] => false
  | a :: as, b :: bs => a = b && startsWith as bs

/-- Python substring containment `needle in hay`. -/
def containsSub (needle : List Char) : List Char → Bool
  | [] => needle.isEmpty
  | c :: cs => startsWith needle (c :: cs) || containsSub needle cs

/-- Helper `endsWithCh suffix t`: Python `t.endswith(suffix)`. -/
def endsWithCh (suffix t : List Char) : Bool := startsWith suffix.reverse t.reverse

/-- Worker for `splitRuns`: `cur` is the reversed current segment, `inSep`
records whether the previous character was a separator (so that a run of
separators produces a single boundary, as `re.split` with a `+` pattern does). -/
def splitRunsGo (sep : Char → Bool) : List Char → List Char → Bool → List (List Char)
  | [], cur, _ => [cur.reverse]
  | c :: cs, cur, inSep =>
    if sep c then
      if inSep then splitRunsGo sep cs cur true
      else cur.reverse :: splitRunsGo sep cs [] true
    else splitRunsGo sep cs (c :: cur) false

/-- Python `re.split` on a `[...]+` character-class pattern: segments between
maximal runs of separator characters (empty segments kept at the ends). -/
def splitRuns (sep : Char → Bool) (t : List Char) : List (List Char) :=
  splitRunsGo sep t [] false

/-- Worker for `tokens`; `cur` is the reversed current token. -/
def tokensGo (sep : Char → Bool) : List Char → List Char → List (List Char)
  | [], cur => if cur.isEmpty then [] else [cur.reverse]
  | c :: cs, cur =>
    if sep c then
      if cur.isEmpty then tokensGo sep cs []
      else cur.reverse :: tokensGo sep cs []
    else tokensGo sep cs (c :: cur)

/-- Maximal runs of non-separator characters, empties dropped.  With
`sep := isPySpace` this is Python `str.split()`; with
`sep := fun c => !isWordChar c` it is `re.findall(r'\b\w+\b', ·)`. -/
def tokens (sep : Char → Bool) (t : List Char) : List (List Char) :=
  tokensGo sep t []

/-- Python `t.split('\n')`: split at every occurrence of one character,
keeping empty segments. -/
def splitChar (ch : Char) : List Char → List (List Char)
  | [] => [[]]
  | c :: cs =>
    if c = ch then [] :: splitChar ch cs
    else
      match splitChar ch cs with
      | [] => [[c]]
      | s :: ss => (c :: s) :: ss

/-- Python `round(q, 2)` — round to two decimal places.  Python rounds exact halves
to even; this model rounds halves up, which agrees with Python everywhere a
claim below evaluates it (no exact midpoint arises there). -/
def round2 (q : ℚ) : ℚ := (⌊q * 100 + 1 / 2⌋ : ℚ) / 100

/-! ## resume_analyzer.py -/

/-- Source `ResumeAnalyzer.trap_terms`. -/
def trapTerms : List (List Char) := ["back-office engineering".toList]

/-- Source `ResumeAnalyzer.buzzwords` (verbatim, including the mixed-case entries:
the source tests `buzz in word` against *lowercased* words without lowering
`buzz`, so the mixed-case entries can never match — preserved faithfully). -/
def buzzwords : List (List Char) :=
  ["synergy".toList, "paradigm shift".toList, "blockchain".toList, "AI/ML".toList,
   "cloud-native".toList, "microservices".toList, "kubernetes".toList, "docker".toList,
   "terraform".toList, "ansible".toList, "CI/CD".toList, "DevOps".toList,
   "agile".toList, "scrum".toList, "serverless".toList]

/-- Source `ResumeAnalyzer.incorrect_terms` (insertion-ordered dict). -/
def incorrectTerms : List (List Char × List Char) :=
  [("kubenetes".toList, "kubernetes".toList), ("dock".toList, "docker".toList),
   ("jenkin".toList, "jenkins".toList), ("anisble".toList, "ansible".toList)]

/-- Source `_check_trap_terms`: the trap terms found (case-insensitive substring
match), in list order. -/
def checkTrapTerms (text : List Char) : List (List Char) :=
  trapTerms.filter (fun trap => containsSub (lowerText trap) (lowerText text))

/-- Source `_check_trap_terms(...)['has_trap_terms']`. -/
def hasTrapTerms (text : List Char) : Bool := !(checkTrapTerms text).isEmpty

/-- Source `_calculate_buzzword_density(...)['density']`: percentage of
whitespace-split words of the lowercased text that contain some buzzword as a
substring, rounded to two decimals; `0` for empty text. -/
def buzzwordDensity (text : List Char) : ℚ :=
  let ws := tokens isPySpace (lowerText text)
  let buzzwordCount := (ws.filter (fun w => buzzwords.any (fun b => containsSub b w))).length
  if ws.isEmpty then 0 else round2 ((buzzwordCount : ℚ) / ws.length * 100)

/-- Source `check_terminology(...)['errors']`: the `(found, should_be)` pairs whose
key occurs in the lowercased text, in dict order. -/
def checkTerminology (text : List Char) : List (List Char × List Char) :=
  incorrectTerms.filter (fun p => containsSub p.1 (lowerText text))

/-- Severity tiers of red-flag findings. -/
inductive Severity
  | CRITICAL
  | WARNING
  | MINOR
deriving DecidableEq, Repr

/-- One red-flag finding.  The source attaches free-text description and
recommendation strings, which carry no logic; only the type tag and the
severity are modeled. -/
structure Finding where
  ftype : String
  severity : Severity
deriving DecidableEq, Repr

/-- Output of `identify_red_flags`: the three severity tiers, each in the
order the source appends findings. -/
structure RedFlags where
  critical : List Finding
  warning : List Finding
  minor : List Finding
deriving DecidableEq, Repr

/-- Source `identify_red_flags(resume_text, job_description)` from resume_analyzer.py.

Three of its sub-checks are regex-based (`_check_generic_content` yielding the
job-description match percentage, `_calculate_specificity` yielding the
specificity score, `_check_career_progression` yielding the rapid-progression
flag); their numeric results are taken as inputs `genericMatchPct`,
`specificityScore`, `rapidProgression` and the aggregation rules applied to
them are translated from the source.  The trap-term, buzzword-density and
terminology sub-checks are fully modeled above. -/
def identify_red_flags (text jd : List Char) (genericMatchPct : ℚ)
    (specificityScore : ℕ) (rapidProgression : Bool) : RedFlags :=
  let critTrap : List Finding :=
    if hasTrapTerms text then [⟨"TRAP_TERM_DETECTED", .CRITICAL⟩] else []
  let jdFlags : List Finding × List Finding :=
    if jd.isEmpty then ([], [])
    else if genericMatchPct > 90 then ([⟨"EXACT_JD_MATCH", .CRITICAL⟩], [])
    else if genericMatchPct > 75 then ([], [⟨"HIGH_JD_SIMILARITY", .WARNING⟩])
    else ([], [])
  let bd := buzzwordDensity text
  let buzzFlags : List Finding × List Finding :=
    if bd > 8 then ([⟨"EXCESSIVE_BUZZWORDS", .WARNING⟩], [])
    else if bd > 5 then ([], [⟨"MODERATE_BUZZWORDS", .MINOR⟩])
    else ([], [])
  let vagueFlags : List Finding :=
    if specificityScore < 30 then [⟨"VAGUE_CONTENT", .WARNING⟩] else []
  let termFlags : List Finding :=
    (checkTerminology text).map (fun _ => ⟨"TERMINOLOGY_ERROR", .WARNING⟩)
  let progFlags : List Finding :=
    if rapidProgression then [⟨"RAPID_PROGRESSION", .WARNING⟩] else []
  { critical := critTrap ++ jdFlags.1
    warning := jdFlags.2 ++ buzzFlags.1 ++ vagueFlags ++ termFlags ++ progFlags
    minor := buzzFlags.2 }

/-! ## app.py — risk scoring -/

/-- The slice of an `ai_detection` result read by the scoring functions. -/
structure AIDetection where
  is_ai_generated : Bool
  confidence : ℚ
deriving DecidableEq, Repr

/-- The slice of a `consistency_check` result read by `calculate_risk_score`. -/
structure Consistency where
  dates_valid : Bool
  career_progression_valid : Bool
deriving DecidableEq, Repr

/-- The `results` bundle consumed by `calculate_risk_score`. -/
structure RiskBundle where
  ai_detection : AIDetection
  red_flags : RedFlags
  consistency_check : Consistency
deriving DecidableEq, Repr

/-- Source `calculate_risk_score` from app.py. -/
def calculate_risk_score (r : RiskBundle) : ℚ :=
  let s1 : ℚ := if r.ai_detection.is_ai_generated then r.ai_detection.confidence * 30 else 0
  let s2 : ℚ := s1 + (r.red_flags.critical.length : ℚ) * 10
  let s3 : ℚ := s2 + (r.red_flags.warning.length : ℚ) * 5
  let s4 : ℚ := s3 + (r.red_flags.minor.length : ℚ) * 2
  let s5 : ℚ := s4 + (if !r.consistency_check.dates_valid then 15 else 0)
  let s6 : ℚ := s5 + (if !r.consistency_check.career_progression_valid then 15 else 0)
  min s6 100

/-- The risk-score formula exactly as the specification states it
(§4.4 `scoreResume`). -/
def specScoreResume (r : RiskBundle) : ℚ :=
  min ((if r.ai_detection.is_ai_generated then 30 * r.ai_detection.confidence else 0)
      + 10 * (r.red_flags.critical.length : ℚ)
      + 5 * (r.red_flags.warning.length : ℚ)
      + 2 * (r.red_flags.minor.length : ℚ)
      + (if !r.consistency_check.dates_valid then 15 else 0)
      + (if !r.consistency_check.career_progression_valid then 15 else 0)) 100

/-- Risk levels returned by `get_risk_level`. -/
inductive RiskLevel
  | MINIMAL
  | LOW
  | MEDIUM
  | HIGH
  | CRITICAL
deriving DecidableEq, Repr

/-- Source `get_risk_level` from app.py. -/
def get_risk_level (score : ℚ) : RiskLevel :=
  if score ≥ 70 then .CRITICAL
  else if score ≥ 50 then .HIGH
  else if score ≥ 30 then .MEDIUM
  else if score ≥ 15 then .LOW
  else .MINIMAL

/-- Ordinal rank of a risk level (MINIMAL lowest). -/
def levelRank : RiskLevel → ℕ
  | .MINIMAL => 0
  | .LOW => 1
  | .MEDIUM => 2
  | .HIGH => 3
  | .CRITICAL => 4

/-! ## Python values and dicts

The online-presence result is read through `dict.get` with truthiness tests,
so Python values are modeled explicitly. -/

/-- A Python value, as needed by the presence pipeline. -/
inductive PyVal
  | none
  | bool (b : Bool)
  | num (q : ℚ)
  | str (s : String)
  | list (l : List PyVal)
  | dict (d : List (String × PyVal))

/-- Python truthiness. -/
def truthy : PyVal → Bool
  | .none => false
  | .bool b => b
  | .num q => decide (q ≠ 0)
  | .str s => !s.isEmpty
  | .list l => !l.isEmpty
  | .dict d => !d.isEmpty

/-- Python `d[k]` / `d.get(k)` over an association list: first binding wins,
`PyVal.none` when the key is missing (so a truthiness test on a missing key
is false, as for Python `d.get(k)`). -/
def lookupD : List (String × PyVal) → String → PyVal
  | [], _ => .none
  | (k', v) :: rest, k => if k' = k then v else lookupD rest k

/-- Python `d.get(k, default)`. -/
def lookupDD (d : List (String × PyVal)) (k : String) (dflt : PyVal) : PyVal :=
  match lookupD d k with
  | .none => dflt
  | v => v

/-- Python `d[k] = v`: replace in place, append when absent (Python dicts keep
insertion order). -/
def dictSet : List (String × PyVal) → String → PyVal → List (String × PyVal)
  | [], k, v => [(k, v)]
  | (k', v') :: rest, k, v =>
    if k' = k then (k', v) :: rest else (k', v') :: dictSet rest k v

/-- Python `d[k].append(x)` for a list-valued key; leaves `d` unchanged if the value
at `k` is not a list (the source only ever appends to list values). -/
def dictAppend (d : List (String × PyVal)) (k : String) (x : PyVal) :
    List (String × PyVal) :=
  match lookupD d k with
  | .list l => dictSet d k (.list (l ++ [x]))
  | _ => d

/-- Python `str(v)` as interpolated into the f-strings of the presence
module; containers never reach those f-strings with content that matters, so
they render as an empty string here. -/
def pyStr : PyVal → String
  | .none => "None"
  | .bool b => if b then "True" else "False"
  | .num _ => ""
  | .str s => s
  | .list _ => ""
  | .dict _ => ""

/-- Numeric content of a value (`p.get('public_repos', 0) > 0` comparisons);
the source would raise on non-numeric operands, which never occur. -/
def pyNum : PyVal → ℚ
  | .num q => q
  | .bool b => if b then 1 else 0
  | _ => 0

/-! ## app.py — comprehensive risk -/

/-- The slice of a `linkedin_checker.verify_profile` result read by
`calculate_comprehensive_risk`; `Option` models
`'linkedin': ... if linkedin_url else None`. -/
structure LinkedInData where
  recently_created : Bool
  has_verification_badge : Bool
  low_connections : Bool
  vague_experience : Bool
deriving DecidableEq, Repr

/-- The `results` structure consumed by `calculate_comprehensive_risk`:
`resume_verification.ai_detection`, `resume_verification.red_flags`,
`online_verification.linkedin`, `online_verification.presence`. -/
structure ComprehensiveResults where
  resume_ai : AIDetection
  resume_red_flags : RedFlags
  linkedin : Option LinkedInData
  presence : List (String × PyVal)

/-- The online-presence block of `calculate_comprehensive_risk` (app.py
lines 459-468): four truthiness tests on keys of the presence dict. -/
def presence_subscore (presence : List (String × PyVal)) : ℚ :=
  (if !truthy (lookupD presence "has_linkedin") then 30 else 0)
  + (if !truthy (lookupD presence "has_github") then 20 else 0)
  + (if !truthy (lookupD presence "has_google_presence") then 30 else 0)
  + (if truthy (lookupD presence "email_suspicious") then 20 else 0)

/-- Source `calculate_comprehensive_risk` from app.py.  Weights are the source's
`0.4 / 0.3 / 0.3` written as exact rationals. -/
def calculate_comprehensive_risk (r : ComprehensiveResults) : ℚ :=
  let resume_score : ℚ :=
    (if r.resume_ai.is_ai_generated then r.resume_ai.confidence * 30 else 0)
    + (r.resume_red_flags.critical.length : ℚ) * 10
    + (r.resume_red_flags.warning.length : ℚ) * 5
  let score1 : ℚ := resume_score * (4 / 10)
  let score2 : ℚ := score1 +
    match r.linkedin with
    | Option.none => 0
    | Option.some ld =>
      ((if ld.recently_created then 30 else 0)
        + (if !ld.has_verification_badge then 20 else 0)
        + (if ld.low_connections then 25 else 0)
        + (if ld.vague_experience then 25 else 0)) * (3 / 10)
  let score3 : ℚ := score2 + presence_subscore r.presence * (3 / 10)
  min score3 100

/-- The comprehensive formula exactly as the specification states it
(§4.4 `scoreComprehensive`): fixed weights 0.4/0.3/0.3, resume sub-score
`30×conf(if flagged) + 10×critical + 5×warning`, LinkedIn term present only
when signals are supplied. -/
def specScoreComprehensive (r : ComprehensiveResults) : ℚ :=
  let resumeSub : ℚ :=
    (if r.resume_ai.is_ai_generated then 30 * r.resume_ai.confidence else 0)
    + 10 * (r.resume_red_flags.critical.length : ℚ)
    + 5 * (r.resume_red_flags.warning.length : ℚ)
  let linkedinTerm : ℚ :=
    match r.linkedin with
    | Option.none => 0
    | Option.some ld =>
      (3 / 10) * ((if ld.recently_created then 30 else 0)
        + (if !ld.has_verification_badge then 20 else 0)
        + (if ld.low_connections then 25 else 0)
        + (if ld.vague_experience then 25 else 0))
  min ((4 / 10) * resumeSub + linkedinTerm + (3 / 10) * presence_subscore r.presence) 100

/-! ## online_presence.py -/

/-- The red-flag dict appended for a disposable email. -/
def disposableEmailFlag : PyVal :=
  .dict [("type", .str "DISPOSABLE_EMAIL"), ("severity", .str "CRITICAL"),
         ("description", .str "Candidate is using a disposable email address"),
         ("recommendation", .str "REJECT - Clear fraud indicator")]

/-- The warning dict appended for a suspicious email. -/
def suspiciousEmailFlag (emailCheck : PyVal) : PyVal :=
  .dict [("type", .str "SUSPICIOUS_EMAIL"), ("severity", .str "WARNING"),
         ("description", .str "Email address has suspicious patterns"),
         ("flags", match emailCheck with
                   | .dict d => lookupDD d "flags" (.list [])
                   | _ => .list [])]

/-- The warning dict appended for a suspicious phone number. -/
def suspiciousPhoneFlag (phoneCheck : PyVal) : PyVal :=
  .dict [("type", .str "SUSPICIOUS_PHONE"), ("severity", .str "WARNING"),
         ("description", .str "Phone number has suspicious characteristics"),
         ("flags", match phoneCheck with
                   | .dict d => lookupDD d "flags" (.list [])
                   | _ => .list [])]

/-- The warning dict appended when no GitHub profile was found. -/
def noGithubFlag : PyVal :=
  .dict [("type", .str "NO_GITHUB_PRESENCE"), ("severity", .str "WARNING"),
         ("description", .str "No GitHub profile found - unusual for DevOps candidate"),
         ("recommendation", .str "Ask candidate about their open source contributions or personal projects")]

/-- The `osint_recommendations` list built by `_analyze_presence_results`. -/
def osintRecommendations (info : PyVal) : PyVal :=
  let name := match info with | .dict d => lookupD d "name" | _ => .none
  let email := match info with | .dict d => lookupD d "email" | _ => .none
  .list
    [.dict [("tool", .str "ThatsThem"), ("url", .str "https://thatsthem.com/"),
            ("purpose", .str "Search for name, phone, address, email"),
            ("action", .str ("Search for: " ++ pyStr name ++ ", " ++ pyStr email))],
     .dict [("tool", .str "HaveIBeenPwned"),
            ("url", .str "https://haveibeenpwned.com/api/v3/breachedaccount/"),
            ("purpose", .str "Check if email appears in data breaches"),
            ("action", .str ("Check email: " ++ pyStr email))],
     .dict [("tool", .str "WhatsMyName"), ("url", .str "https://whatsmyname.app/"),
            ("purpose", .str "Search for username across 400+ platforms"),
            ("action", .str "Extract potential usernames from email/LinkedIn and search")],
     .dict [("tool", .str "Intelligence X"), ("url", .str "https://intelx.io/"),
            ("purpose", .str "Deep web search for email, domain, name"),
            ("action", .str "Search for email and name in dark web databases")],
     .dict [("tool", .str "FamilyTreeNow"), ("url", .str "https://www.familytreenow.com/"),
            ("purpose", .str "Verify US-based candidates (public records)"),
            ("action", .str "Search for name and location to verify identity")]]

/-- Source `_calculate_presence_score` from online_presence.py. -/
def calculate_presence_score (results : List (String × PyVal)) : ℚ :=
  let checks := match lookupD results "checks" with | .dict d => d | _ => []
  let emailC := match lookupD checks "email" with | .dict d => d | _ => []
  let phoneC := match lookupD checks "phone" with | .dict d => d | _ => []
  let githubC := match lookupD checks "github" with | .dict d => d | _ => []
  let s1 : ℚ := if truthy (lookupD emailC "valid") then 20 else 0
  let s2 : ℚ := s1 - (if truthy (lookupD emailC "is_disposable") then 30 else 0)
  let s3 : ℚ := s2 + (if truthy (lookupD phoneC "valid") then 15 else 0)
  let s4 : ℚ := s3 +
    (if truthy (lookupD githubC "exists") && truthy (lookupD githubC "profiles_found") then
      (match lookupD githubC "profiles_found" with
       | .list profiles =>
         if profiles.any (fun p =>
             pyNum (match p with | .dict d => lookupDD d "public_repos" (.num 0) | _ => .num 0) > 0)
         then (25 : ℚ) else 10
       | _ => 0)
     else 0)
  max 0 (min s4 100)

/-- Source `_get_presence_level` from online_presence.py. -/
def get_presence_level (score : ℚ) : String :=
  if score ≥ 70 then "STRONG"
  else if score ≥ 50 then "MODERATE"
  else if score ≥ 30 then "WEAK"
  else "MINIMAL/SUSPICIOUS"

/-- Source `_analyze_presence_results` from online_presence.py: appends the email /
phone / GitHub findings to `red_flags` / `warnings`, fills
`osint_recommendations`, and adds the `presence_score` and `presence_level`
keys.  Dict mutation is modeled by `dictSet` / `dictAppend`. -/
def analyze_presence_results (results : List (String × PyVal)) :
    List (String × PyVal) :=
  let checks := match lookupD results "checks" with | .dict d => d | _ => []
  let emailCheck := lookupDD checks "email" (.dict [])
  let emailD := match emailCheck with | .dict d => d | _ => []
  let r1 :=
    if truthy (lookupD emailD "is_disposable") then
      dictAppend results "red_flags" disposableEmailFlag
    else if truthy (lookupD emailD "is_suspicious") then
      dictAppend results "warnings" (suspiciousEmailFlag emailCheck)
    else results
  let phoneCheck := lookupDD checks "phone" (.dict [])
  let phoneD := match phoneCheck with | .dict d => d | _ => []
  let r2 :=
    if truthy (lookupD phoneD "flags") then
      dictAppend r1 "warnings" (suspiciousPhoneFlag phoneCheck)
    else r1
  let githubD := match lookupDD checks "github" (.dict []) with | .dict d => d | _ => []
  let r3 :=
    if !truthy (lookupD githubD "exists") then
      dictAppend r2 "warnings" noGithubFlag
    else r2
  let r4 := dictSet r3 "osint_recommendations"
    (osintRecommendations (lookupD results "candidate_info"))
  let r5 := dictSet r4 "presence_score" (.num (calculate_presence_score r4))
  dictSet r5 "presence_level" (.str (get_presence_level (calculate_presence_score r4)))

/-- Source `verify_presence` from online_presence.py.  The six per-field checks
(`_check_email`, `_check_phone`, `_check_linkedin_presence`,
`_check_github_presence`, `_check_google_presence`, `_check_data_breaches`)
wrap external validator libraries and network lookups; their results are
taken as arbitrary inputs — the theorems below hold for every value. -/
def verify_presence (info emailC phoneC linkedinC githubC googleC breachesC : PyVal) :
    List (String × PyVal) :=
  analyze_presence_results
    [("candidate_info", info),
     ("checks", .dict [("email", emailC), ("phone", phoneC), ("linkedin", linkedinC),
                       ("github", githubC), ("google", googleC),
                       ("data_breaches", breachesC)]),
     ("red_flags", .list []),
     ("warnings", .list []),
     ("osint_recommendations", .list [])]

/-! ## ai_detector.py -/

/-- Source `AIContentDetector.action_verbs`. -/
def actionVerbs : List (List Char) :=
  ["developed".toList, "implemented".toList, "created".toList, "designed".toList,
   "built".toList, "managed".toList, "led".toList, "orchestrated".toList,
   "spearheaded".toList, "championed".toList, "optimized".toList,
   "streamlined".toList, "enhanced".toList, "improved".toList]

/-- Source `re.split(r'[.!?]+', text)` in `_check_sentence_uniformity`. -/
def sentenceSegments (t : List Char) : List (List Char) :=
  splitRuns (fun c => c = '.' || c = '!' || c = '?') t

/-- Source `[s.strip() for s in sentences if len(s.strip()) > 10]`. -/
def qualifyingSentences (t : List Char) : List (List Char) :=
  ((sentenceSegments t).map strip).filter (fun s => s.length > 10)

/-- Source `lengths = [len(s.split()) for s in sentences]`. -/
def sentenceWordCounts (t : List Char) : List ℕ :=
  (qualifyingSentences t).map (fun s => (tokens isPySpace s).length)

/-- Source `avg_length = sum(lengths) / len(lengths)`. -/
def meanQ (ls : List ℕ) : ℚ := (ls.sum : ℚ) / ls.length

/-- Source `variance = sum((l - avg_length) ** 2 for l in lengths) / len(lengths)`. -/
def varianceQ (ls : List ℕ) : ℚ :=
  ((ls.map (fun l => ((l : ℚ) - meanQ ls) ^ 2)).sum) / ls.length

/-- One line tested against the MULTILINE regex `^\s*[•\-\*]\s*(\w+)`:
optional leading whitespace, a bullet glyph, optional whitespace, then the
captured word.  (In this per-line model the whitespace after the glyph does
not run across a newline into the next line, a case the source's `\s*`
technically allows and that never occurs in a résumé.) -/
def lineBulletWord (line : List Char) : Option (List Char) :=
  match line.dropWhile isPySpace with
  | [] => Option.none
  | c :: cs =>
    if c = '•' || c = '-' || c = '*' then
      let w := (cs.dropWhile isPySpace).takeWhile isWordChar
      if w.isEmpty then Option.none else Option.some w
    else Option.none

/-- Source `re.findall(r'^\s*[•\-\*]\s*(\w+)', text, re.MULTILINE)`: the captured
first word of every bullet line. -/
def bulletFirstWords (t : List Char) : List (List Char) :=
  (splitChar '\n' t).filterMap lineBulletWord

/-- Python `round(x, 2)` over the reals (see `round2`). -/
noncomputable def round2R (x : ℝ) : ℝ := (⌊x * 100 + 1 / 2⌋ : ℤ) / 100

/-- Source `_check_sentence_uniformity(...)['score']` from ai_detector.py.  The
source computes `std_dev = variance ** 0.5` on floats; the model uses
`Real.sqrt` of the exact rational variance. -/
noncomputable def uniformity_score (t : List Char) : ℝ :=
  let ls := sentenceWordCounts t
  if ls.length < 5 then 0
  else
    let u : ℝ := max 0 (1 - Real.sqrt (varianceQ ls : ℝ) / 10)
    let bullets := bulletFirstWords t
    let u' : ℝ :=
      if !bullets.isEmpty then
        if 3 < bullets.length ∧
            ((bullets.filter (fun b => actionVerbs.contains (lowerText b))).length : ℚ)
              / bullets.length > 9 / 10 then
          max u (8 / 10)
        else u
      else u
    round2R u'

/-- The sentence-uniformity sub-score exactly as claim C7 states it: split on
sentence terminators, keep sentences longer than 10 characters, take the
standard deviation of their word counts, `max(0, 1 - stddev/10)`, and `0`
when fewer than 5 qualifying sentences exist. -/
noncomputable def uniformityClaimedC7 (t : List Char) : ℝ :=
  let ls := sentenceWordCounts t
  if ls.length < 5 then 0
  else max 0 (1 - Real.sqrt (varianceQ ls : ℝ) / 10)

/-- The bullet condition of `_check_sentence_uniformity`: more than three
bullet lines and more than 90% of their first words are known action verbs. -/
def bulletOverride (t : List Char) : Bool :=
  let bullets := bulletFirstWords t
  decide (3 < bullets.length) &&
    decide (((bullets.filter (fun b => actionVerbs.contains (lowerText b))).length : ℚ)
      / bullets.length > 9 / 10)

/-- The sentence-uniformity sub-score as amended: as claimed, except that
when the bullet condition holds the uniformity is raised to at least `0.8`,
and the reported score is rounded to two decimal places. -/
noncomputable def uniformityAmendedC7 (t : List Char) : ℝ :=
  let ls := sentenceWordCounts t
  if ls.length < 5 then 0
  else
    let base : ℝ := max 0 (1 - Real.sqrt (varianceQ ls : ℝ) / 10)
    round2R (if bulletOverride t then max base (8 / 10) else base)

/-- Source `re.findall(r'\b\w+\b', text.lower())` in `_check_vocabulary_diversity`. -/
def wordTokensLower (t : List Char) : List (List Char) :=
  tokens (fun c => !isWordChar c) (lowerText t)

/-- Source `_check_vocabulary_diversity(...)['score']` from ai_detector.py:
type-token ratio rounded to two decimals, `0` below 50 words. -/
def vocab_diversity (t : List Char) : ℚ :=
  let ws := wordTokensLower t
  if ws.length < 50 then 0
  else round2 ((ws.dedup.length : ℚ) / ws.length)

/-- The pattern-match tier of `_calculate_confidence` (0-30 points). -/
def patternContribution (matchCount : ℕ) : ℚ :=
  if matchCount > 8 then 30
  else if matchCount > 5 then 20
  else if matchCount > 3 then 10
  else 0

/-- The point total accumulated by `_calculate_confidence` before the final
`min(·/100, 1.0)`.  Arguments are the six sub-check results it reads:
`pattern_score['match_count']`, `uniformity_score['score']`,
`vocab_score['score']`, `grammar_score['is_perfect']`,
`verb_pattern['is_repetitive']`, `personal_score['lacks_personality']`. -/
noncomputable def confidencePoints (matchCount : ℕ) (uniformity : ℝ) (vocab : ℚ)
    (grammarPerfect repetitive lacksPersonality : Bool) : ℝ :=
  (patternContribution matchCount : ℝ) + uniformity * 20
  + (if vocab > 3 / 4 ∨ vocab < 7 / 20 then (15 : ℝ) else 0)
  + (if grammarPerfect then (15 : ℝ) else 0)
  + (if repetitive then (10 : ℝ) else 0)
  + (if lacksPersonality then (10 : ℝ) else 0)

/-- Source `_calculate_confidence` from ai_detector.py: `min(confidence/100, 1.0)`. -/
noncomputable def calculate_confidence (matchCount : ℕ) (uniformity : ℝ) (vocab : ℚ)
    (grammarPerfect repetitive lacksPersonality : Bool) : ℝ :=
  min (confidencePoints matchCount uniformity vocab grammarPerfect repetitive
        lacksPersonality / 100) 1

/-! ## app.py — batch_verification -/

/-- One uploaded file of a batch request.  Text extraction and the heuristic
checks run inside the per-file `try`; `outcome` is an error message when that
body raises, otherwise the scoring bundle it produces. -/
structure BatchInput where
  filename : String
  outcome : Except String RiskBundle

/-- The extension filter at the top of the per-file loop
(`filename.lower().endswith` for `.pdf` / `.docx` / `.txt`). -/
def eligibleFilename (f : String) : Bool :=
  let fl := lowerText f.toList
  endsWithCh ".pdf".toList fl || endsWithCh ".docx".toList fl ||
    endsWithCh ".txt".toList fl

/-- Source `os.path.splitext(filename)[0]`: drop the last dot-suffix when a dot is
present.  (The leading-dot special case of `splitext` never arises for the
résumé filenames handled here.) -/
def splitextStem (f : String) : String :=
  let t := f.toList
  if t.contains '.' then ((t.reverse.dropWhile (fun c => c ≠ '.')).tail).reverse.asString
  else f

/-- A batch entry's risk level: one of the five levels, or the literal
`'ERROR'` used for failed files. -/
inductive BatchLevel
  | ofRisk (l : RiskLevel)
  | ERROR
deriving DecidableEq, Repr

/-- One element of the batch `results` list.  The source's full entries carry
further copied report fields (ai confidence, flag counts, …) that no claim
reads; the fields ordered on, counted, and required by the claims are kept. -/
structure BatchEntry where
  filename : String
  candidate_name : String
  risk_score : ℚ
  risk_level : BatchLevel
  error : Option String
deriving DecidableEq, Repr

/-- The entry appended in the `except` branch of the batch loop. -/
def mkErrorEntry (filename : String) (e : String) : BatchEntry :=
  { filename := filename, candidate_name := splitextStem filename,
    risk_score := 0, risk_level := .ERROR, error := Option.some e }

/-- The entry appended on success: risk score and level computed from the
bundle by `calculate_risk_score` / `get_risk_level`. -/
def mkOkEntry (filename : String) (b : RiskBundle) : BatchEntry :=
  { filename := filename, candidate_name := splitextStem filename,
    risk_score := calculate_risk_score b,
    risk_level := .ofRisk (get_risk_level (calculate_risk_score b)),
    error := Option.none }

/-- What one loop iteration contributes: `none` for files skipped by the
extension filter, otherwise the appended entry. -/
def processFile (i : BatchInput) : Option BatchEntry :=
  if eligibleFilename i.filename then
    Option.some (match i.outcome with
      | .error e => mkErrorEntry i.filename e
      | .ok b => mkOkEntry i.filename b)
  else Option.none

/-- Results list plus the `processed` / `failed` counters of
`batch_verification`. -/
structure BatchOutcome where
  entries : List BatchEntry
  processed : ℕ
  failed : ℕ
deriving DecidableEq, Repr

/-- The per-file loop of `batch_verification` (app.py lines 167-227):
ineligible files are skipped, a raising file appends an error entry and
increments `failed`, a successful file appends a full entry and increments
`processed`.  No outcome aborts the remaining files. -/
def batch_loop : List BatchInput → BatchOutcome
  | [] => ⟨[], 0, 0⟩
  | i :: is =>
    let rest := batch_loop is
    if eligibleFilename i.filename then
      match i.outcome with
      | .error e =>
        ⟨mkErrorEntry i.filename e :: rest.entries, rest.processed, rest.failed + 1⟩
      | .ok b =>
        ⟨mkOkEntry i.filename b :: rest.entries, rest.processed + 1, rest.failed⟩
    else rest

/-- Stable descending insertion: `x` (the later submission) goes after every
already-placed entry of equal or higher score. -/
def insertDesc (x : BatchEntry) : List BatchEntry → List BatchEntry
  | [] => [x]
  | y :: ys => if y.risk_score ≤ x.risk_score then x :: y :: ys else y :: insertDesc x ys

/-- Stable sort, descending by `risk_score`: the model of Python's
`results.sort(key=lambda x: x.get('risk_score', 0), reverse=True)`, which is
documented to be stable with `reverse=True` preserving the original order of
equal keys. -/
def sortByScoreDesc : List BatchEntry → List BatchEntry
  | [] => []
  | x :: xs => insertDesc x (sortByScoreDesc xs)

/-- Source `batch_verification` (app.py): run the loop, then sort the results. -/
def batch_verification (inputs : List BatchInput) : BatchOutcome :=
  let o := batch_loop inputs
  ⟨sortByScoreDesc o.entries, o.processed, o.failed⟩

/-! ## Claim C1 -/

/-- C1: `calculate_risk_score` equals the spec formula — 30×confidence when
`is_ai_generated` is true (0 otherwise), plus 10 per critical flag, 5 per
warning flag, 2 per minor flag, plus 15 when `dates_valid` is false and 15
when `career_progression_valid` is false, the sum clamped to at most 100. -/
theorem c1_risk_score_matches_spec_formula (r : RiskBundle) :
    calculate_risk_score r = specScoreResume r := by
  obtain ⟨⟨ai, conf⟩, rf, dv, cp⟩ := r
  cases ai <;> cases dv <;> cases cp <;>
    simp only [calculate_risk_score, specScoreResume, Bool.not_true, Bool.not_false,
      if_true, if_false, Bool.false_eq_true, ite_true, ite_false] <;>
    congr 1 <;> ring

/-! ## Claim C2 -/

/-- C2: `get_risk_level` is monotonic non-decreasing in the score, its five
intervals exactly partition `[0,100]` (score < 15 ⇒ MINIMAL, 15 ≤ score < 30
⇒ LOW, 30 ≤ score < 50 ⇒ MEDIUM, 50 ≤ score < 70 ⇒ HIGH, score ≥ 70 ⇒
CRITICAL), in particular at the boundary values 14/15, 29/30, 49/50, 69/70. -/
theorem c2_risk_level_monotone_partition :
    (∀ s t : ℚ, s ≤ t → levelRank (get_risk_level s) ≤ levelRank (get_risk_level t)) ∧
    (∀ s : ℚ, 0 ≤ s → s ≤ 100 →
      ((get_risk_level s = .MINIMAL ↔ s < 15) ∧
       (get_risk_level s = .LOW ↔ 15 ≤ s ∧ s < 30) ∧
       (get_risk_level s = .MEDIUM ↔ 30 ≤ s ∧ s < 50) ∧
       (get_risk_level s = .HIGH ↔ 50 ≤ s ∧ s < 70) ∧
       (get_risk_level s = .CRITICAL ↔ 70 ≤ s))) ∧
    get_risk_level 14 = .MINIMAL ∧ get_risk_level 15 = .LOW ∧
    get_risk_level 29 = .LOW ∧ get_risk_level 30 = .MEDIUM ∧
    get_risk_level 49 = .MEDIUM ∧ get_risk_level 50 = .HIGH ∧
    get_risk_level 69 = .HIGH ∧ get_risk_level 70 = .CRITICAL := by
  refine ⟨?_, ?_, ?_, ?_, ?_, ?_, ?_, ?_, ?_, ?_⟩
  · intro s t hst
    unfold get_risk_level
    split_ifs <;> simp [levelRank] <;> try linarith
  · intro s _ _
    unfold get_risk_level
    split_ifs <;>
      refine ⟨?_, ?_, ?_, ?_, ?_⟩ <;> simp <;>
        first
          | linarith
          | (rintro ⟨h1, h2⟩; linarith)
          | (intro h1; linarith)
          | (constructor <;> linarith)
  all_goals norm_num [get_risk_level]

/-- Instantiation of `c2_risk_level_monotone_partition` at concrete scores. -/
theorem c2_witness :
    levelRank (get_risk_level 10) ≤ levelRank (get_risk_level 60) ∧
      (get_risk_level 40 = .MEDIUM ↔ (30 : ℚ) ≤ 40 ∧ (40 : ℚ) < 50) :=
  ⟨c2_risk_level_monotone_partition.1 10 60 (by norm_num),
   (c2_risk_level_monotone_partition.2.1 40 (by norm_num) (by norm_num)).2.2.1⟩

/-! ## Claim C3 -/

lemma presence_subscore_nonneg (p : List (String × PyVal)) :
    0 ≤ presence_subscore p := by
  unfold presence_subscore
  split_ifs <;> norm_num

lemma linkedin_subscore_cases (lk : Option LinkedInData) :
    0 ≤ match lk with
        | Option.none => (0 : ℚ)
        | Option.some ld =>
          ((if ld.recently_created then 30 else 0)
            + (if !ld.has_verification_badge then 20 else 0)
            + (if ld.low_connections then 25 else 0)
            + (if ld.vague_experience then 25 else 0)) * (3 / 10) := by
  cases lk with
  | none => norm_num
  | some ld =>
    dsimp only
    split_ifs <;> norm_num

/-- C3: for every input bundle (with the data-model invariant that the AI
confidence is non-negative — `detect_ai_content` only produces confidences in
`[0,1]`), both scoring entry points `calculate_risk_score` and
`calculate_comprehensive_risk` return a score in `[0,100]`. -/
theorem c3_scores_bounded (b : RiskBundle) (c : ComprehensiveResults)
    (hb : 0 ≤ b.ai_detection.confidence) (hc : 0 ≤ c.resume_ai.confidence) :
    (0 ≤ calculate_risk_score b ∧ calculate_risk_score b ≤ 100) ∧
    (0 ≤ calculate_comprehensive_risk c ∧ calculate_comprehensive_risk c ≤ 100) := by
  refine ⟨⟨?_, min_le_right _ _⟩, ⟨?_, min_le_right _ _⟩⟩
  · unfold calculate_risk_score
    refine le_min ?_ (by norm_num)
    have hcr : (0 : ℚ) ≤ (b.red_flags.critical.length : ℚ) := Nat.cast_nonneg _
    have hwa : (0 : ℚ) ≤ (b.red_flags.warning.length : ℚ) := Nat.cast_nonneg _
    have hmi : (0 : ℚ) ≤ (b.red_flags.minor.length : ℚ) := Nat.cast_nonneg _
    have hai : (0 : ℚ) ≤ b.ai_detection.confidence * 30 :=
      mul_nonneg hb (by norm_num)
    split_ifs <;> linarith
  · unfold calculate_comprehensive_risk
    refine le_min ?_ (by norm_num)
    have hcr : (0 : ℚ) ≤ (c.resume_red_flags.critical.length : ℚ) := Nat.cast_nonneg _
    have hwa : (0 : ℚ) ≤ (c.resume_red_flags.warning.length : ℚ) := Nat.cast_nonneg _
    have hai : (0 : ℚ) ≤ c.resume_ai.confidence * 30 := mul_nonneg hc (by norm_num)
    have hpr := presence_subscore_nonneg c.presence
    have hlk := linkedin_subscore_cases c.linkedin
    cases hlkv : c.linkedin with
    | none =>
      rw [hlkv] at hlk
      split_ifs <;> simp only [hlkv] <;> linarith
    | some ld =>
      rw [hlkv] at hlk
      split_ifs <;> simp only [hlkv] <;> linarith

/-- A concrete scoring bundle for instantiating the bound theorems. -/
def exBundleC3 : RiskBundle :=
  { ai_detection := { is_ai_generated := true, confidence := 1 / 2 },
    red_flags := { critical := [⟨"TRAP_TERM_DETECTED", .CRITICAL⟩],
                   warning := [], minor := [] },
    consistency_check := { dates_valid := false, career_progression_valid := true } }

/-- A concrete comprehensive-results value for instantiating the bound
theorems. -/
def exCompC3 : ComprehensiveResults :=
  { resume_ai := { is_ai_generated := false, confidence := 0 },
    resume_red_flags := { critical := [], warning := [], minor := [] },
    linkedin := Option.none,
    presence := [] }

/-- Instantiation of `c3_scores_bounded` at concrete inputs. -/
theorem c3_witness :
    (0 ≤ calculate_risk_score exBundleC3 ∧ calculate_risk_score exBundleC3 ≤ 100) ∧
    (0 ≤ calculate_comprehensive_risk exCompC3 ∧
      calculate_comprehensive_risk exCompC3 ≤ 100) :=
  c3_scores_bounded exBundleC3 exCompC3 (by norm_num [exBundleC3])
    (by norm_num [exCompC3])

/-! ## Claim C5 -/

/-- C5: `calculate_comprehensive_risk` blends with the fixed weights
resume 0.4, linkedin 0.3, presence 0.3; its resume sub-score is only
30×confidence (when flagged) plus 10 per critical and 5 per warning flag
(no minor, date or progression term); and when no LinkedIn signals are
supplied the LinkedIn weighted term is dropped from the sum entirely. -/
theorem c5_comprehensive_blend (r : ComprehensiveResults) :
    calculate_comprehensive_risk r = specScoreComprehensive r ∧
    (r.linkedin = Option.none →
      calculate_comprehensive_risk r =
        min (((if r.resume_ai.is_ai_generated then 30 * r.resume_ai.confidence else 0)
            + 10 * (r.resume_red_flags.critical.length : ℚ)
            + 5 * (r.resume_red_flags.warning.length : ℚ)) * (4 / 10)
          + presence_subscore r.presence * (3 / 10)) 100) := by
  constructor
  · unfold calculate_comprehensive_risk specScoreComprehensive
    cases r.linkedin <;> cases hai : r.resume_ai.is_ai_generated <;>
      simp only [hai, Bool.false_eq_true, ite_true, ite_false, if_true, if_false] <;>
      congr 1 <;> ring
  · intro hnone
    unfold calculate_comprehensive_risk
    rw [hnone]
    cases hai : r.resume_ai.is_ai_generated <;>
      simp only [hai, Bool.false_eq_true, ite_true, ite_false, if_true, if_false] <;>
      congr 1 <;> ring

/-! ## Claim C4 -/

lemma risk_score_ge_ten_of_critical (r : RiskBundle)
    (hconf : 0 ≤ r.ai_detection.confidence)
    (hcrit : 1 ≤ r.red_flags.critical.length) :
    10 ≤ calculate_risk_score r := by
  unfold calculate_risk_score
  refine le_min ?_ (by norm_num)
  have hcr : (1 : ℚ) ≤ (r.red_flags.critical.length : ℚ) := by exact_mod_cast hcrit
  have hwa : (0 : ℚ) ≤ (r.red_flags.warning.length : ℚ) := Nat.cast_nonneg _
  have hmi : (0 : ℚ) ≤ (r.red_flags.minor.length : ℚ) := Nat.cast_nonneg _
  have hai : (0 : ℚ) ≤ r.ai_detection.confidence * 30 := mul_nonneg hconf (by norm_num)
  split_ifs <;> linarith

/-- C4: whenever the text contains a trap term (case-insensitive substring
match), `identify_red_flags` produces at least one critical finding, and
`calculate_risk_score` on the resulting bundle is at least 10 (in particular
non-zero), regardless of the job description, the other sub-check results, or
the remaining bundle fields (AI confidence being non-negative, as
`detect_ai_content` guarantees). -/
theorem c4_trap_term_always_critical (text jd : List Char) (genericMatchPct : ℚ)
    (specificityScore : ℕ) (rapidProgression : Bool)
    (ai : AIDetection) (cons : Consistency)
    (hconf : 0 ≤ ai.confidence)
    (htrap : hasTrapTerms text = true) :
    (identify_red_flags text jd genericMatchPct specificityScore rapidProgression).critical
        ≠ [] ∧
      10 ≤ calculate_risk_score
        ⟨ai, identify_red_flags text jd genericMatchPct specificityScore rapidProgression,
         cons⟩ := by
  have hcrit :
      (identify_red_flags text jd genericMatchPct specificityScore
        rapidProgression).critical =
      ⟨"TRAP_TERM_DETECTED", .CRITICAL⟩ ::
        (if jd.isEmpty then (([], []) : List Finding × List Finding)
         else if genericMatchPct > 90 then ([⟨"EXACT_JD_MATCH", .CRITICAL⟩], [])
         else if genericMatchPct > 75 then ([], [⟨"HIGH_JD_SIMILARITY", .WARNING⟩])
         else ([], [])).1 := by
    simp [identify_red_flags, htrap]
  constructor
  · rw [hcrit]; exact List.cons_ne_nil _ _
  · refine risk_score_ge_ten_of_critical _ hconf ?_
    show 1 ≤ (identify_red_flags text jd genericMatchPct specificityScore
      rapidProgression).critical.length
    rw [hcrit]
    simp

/-- A text containing the planted trap term. -/
def exTrapText : List Char := "Led Back-Office Engineering initiatives".toList

/-- Instantiation of `c4_trap_term_always_critical` at a concrete trap text. -/
theorem c4_witness :
    (identify_red_flags exTrapText [] 0 30 false).critical ≠ [] ∧
      10 ≤ calculate_risk_score
        ⟨⟨false, 0⟩, identify_red_flags exTrapText [] 0 30 false, ⟨true, true⟩⟩ :=
  c4_trap_term_always_critical exTrapText [] 0 30 false ⟨false, 0⟩ ⟨true, true⟩
    (by norm_num) (by decide)

/-! ## Claim C6 -/

lemma insertDesc_perm (x : BatchEntry) : ∀ l, List.Perm (insertDesc x l) (x :: l)
  | [] => .refl _
  | y :: ys => by
    by_cases h : y.risk_score ≤ x.risk_score
    · rw [insertDesc, if_pos h]
    · rw [insertDesc, if_neg h]
      exact ((insertDesc_perm x ys).cons y).trans (List.Perm.swap x y ys)

lemma sortByScoreDesc_perm : ∀ l, List.Perm (sortByScoreDesc l) l
  | [] => .refl _
  | x :: xs => by
    rw [sortByScoreDesc]
    exact (insertDesc_perm x (sortByScoreDesc xs)).trans
      ((sortByScoreDesc_perm xs).cons x)

lemma pairwise_insertDesc (x : BatchEntry) :
    ∀ l, List.Pairwise (fun a b : BatchEntry => b.risk_score ≤ a.risk_score) l →
      List.Pairwise (fun a b : BatchEntry => b.risk_score ≤ a.risk_score)
        (insertDesc x l)
  | [], _ => List.pairwise_singleton _ _
  | y :: ys, h => by
    rcases List.pairwise_cons.mp h with ⟨hy, hys⟩
    by_cases hle : y.risk_score ≤ x.risk_score
    · rw [insertDesc, if_pos hle]
      refine List.pairwise_cons.mpr ⟨?_, h⟩
      intro z hz
      rcases List.mem_cons.mp hz with rfl | hz
      · exact hle
      · exact le_trans (hy z hz) hle
    · rw [insertDesc, if_neg hle]
      refine List.pairwise_cons.mpr ⟨?_, pairwise_insertDesc x ys hys⟩
      intro z hz
      rcases List.mem_cons.mp ((insertDesc_perm x ys).mem_iff.mp hz) with rfl | hz
      · exact le_of_lt (not_le.mp hle)
      · exact hy z hz

lemma pairwise_sortByScoreDesc : ∀ l,
    List.Pairwise (fun a b : BatchEntry => b.risk_score ≤ a.risk_score)
      (sortByScoreDesc l)
  | [] => List.Pairwise.nil
  | x :: xs => by
    rw [sortByScoreDesc]
    exact pairwise_insertDesc x _ (pairwise_sortByScoreDesc xs)

lemma filter_insertDesc (x : BatchEntry) (c : ℚ) :
    ∀ l, (insertDesc x l).filter (fun e => decide (e.risk_score = c)) =
      (if x.risk_score = c then [x] else []) ++
        l.filter (fun e => decide (e.risk_score = c))
  | [] => by
    rw [insertDesc]
    by_cases hx : x.risk_score = c <;> simp [hx]
  | y :: ys => by
    by_cases h : y.risk_score ≤ x.risk_score
    · rw [insertDesc, if_pos h]
      by_cases hx : x.risk_score = c <;> simp [hx, List.filter_cons]
    · have hlt : x.risk_score < y.risk_score := not_le.mp h
      rw [insertDesc, if_neg h]
      rw [List.filter_cons, List.filter_cons, filter_insertDesc x c ys]
      by_cases hy : y.risk_score = c
      · have hx : ¬x.risk_score = c := fun hx => absurd rfl
          (by rw [hx, hy] at hlt; exact ne_of_gt hlt)
        simp [hx, hy]
      · by_cases hx : x.risk_score = c <;> simp [hx, hy]

lemma filter_sortByScoreDesc (c : ℚ) : ∀ l,
    (sortByScoreDesc l).filter (fun e => decide (e.risk_score = c)) =
      l.filter (fun e => decide (e.risk_score = c))
  | [] => rfl
  | x :: xs => by
    rw [sortByScoreDesc, filter_insertDesc x c _, filter_sortByScoreDesc c xs,
      List.filter_cons]
    by_cases hx : x.risk_score = c <;> simp [hx]

/-- Concrete batch entries with scores 10, 90, 50, 90 (in submission order). -/
def exE0 : BatchEntry :=
  ⟨"e0.txt", "e0", 10, .ofRisk .MINIMAL, Option.none⟩

/-- Second submitted entry, score 90. -/
def exE1 : BatchEntry :=
  ⟨"e1.txt", "e1", 90, .ofRisk .CRITICAL, Option.none⟩

/-- Third submitted entry, score 50. -/
def exE2 : BatchEntry :=
  ⟨"e2.txt", "e2", 50, .ofRisk .HIGH, Option.none⟩

/-- Fourth submitted entry, score 90 — must stay after `exE1`. -/
def exE3 : BatchEntry :=
  ⟨"e3.txt", "e3", 90, .ofRisk .CRITICAL, Option.none⟩

/-- C6: the batch result ordering is a stable descending sort by risk score —
the output is a reordering of the input that is pairwise non-increasing in
score, entries with equal score keep their submission order (the filter at
any fixed score value is unchanged), and on submission scores
[10, 90, 50, 90] the output is [90, 90, 50, 10] with the two 90-score
entries in their original relative order. -/
theorem c6_batch_sort_stable_descending :
    (∀ l : List BatchEntry,
      List.Pairwise (fun a b : BatchEntry => b.risk_score ≤ a.risk_score)
        (sortByScoreDesc l)) ∧
    (∀ l : List BatchEntry, List.Perm (sortByScoreDesc l) l) ∧
    (∀ (l : List BatchEntry) (c : ℚ),
      (sortByScoreDesc l).filter (fun e => decide (e.risk_score = c)) =
        l.filter (fun e => decide (e.risk_score = c))) ∧
    sortByScoreDesc [exE0, exE1, exE2, exE3] = [exE1, exE3, exE2, exE0] := by
  refine ⟨pairwise_sortByScoreDesc, sortByScoreDesc_perm,
    fun l c => filter_sortByScoreDesc c l, ?_⟩
  norm_num [sortByScoreDesc, insertDesc, exE0, exE1, exE2, exE3]

/-! ## Claim C8 -/

/-- Whether the per-file body succeeded (no exception). -/
def isOkOutcome : Except String RiskBundle → Bool
  | .ok _ => true
  | .error _ => false

lemma batch_loop_spec : ∀ inputs : List BatchInput,
    (batch_loop inputs).entries = inputs.filterMap processFile ∧
    (batch_loop inputs).processed =
      inputs.countP (fun i => eligibleFilename i.filename && isOkOutcome i.outcome) ∧
    (batch_loop inputs).failed =
      inputs.countP (fun i => eligibleFilename i.filename && !isOkOutcome i.outcome)
  | [] => by simp [batch_loop]
  | i :: is => by
    obtain ⟨h1, h2, h3⟩ := batch_loop_spec is
    cases hel : eligibleFilename i.filename with
    | false =>
      simp [batch_loop, hel, processFile, List.filterMap_cons, List.countP_cons,
        h1, h2, h3]
    | true =>
      cases ho : i.outcome with
      | error e =>
        simp [batch_loop, hel, ho, processFile, isOkOutcome, List.filterMap_cons,
          List.countP_cons, h1, h2, h3]
      | ok b =>
        simp [batch_loop, hel, ho, processFile, isOkOutcome, List.filterMap_cons,
          List.countP_cons, h1, h2, h3]

/-- C8: per-file failures in a batch are isolated.  The loop never aborts —
its entry list is exactly one entry per eligible input (`filterMap`), each
eligible failing input contributes an entry with risk score 0, level ERROR
and its error message and is counted toward `failed`, and each eligible
successful input contributes a full scored entry and is counted toward
`processed`. -/
theorem c8_batch_failures_isolated (inputs : List BatchInput) :
    (batch_loop inputs).entries = inputs.filterMap processFile ∧
    (batch_loop inputs).processed =
      inputs.countP (fun i => eligibleFilename i.filename && isOkOutcome i.outcome) ∧
    (batch_loop inputs).failed =
      inputs.countP (fun i => eligibleFilename i.filename && !isOkOutcome i.outcome) ∧
    (∀ f e, (mkErrorEntry f e).risk_score = 0 ∧ (mkErrorEntry f e).risk_level = .ERROR ∧
      (mkErrorEntry f e).error = Option.some e) ∧
    (∀ i ∈ inputs, ∀ e, eligibleFilename i.filename = true → i.outcome = .error e →
      mkErrorEntry i.filename e ∈ (batch_verification inputs).entries) ∧
    (∀ i ∈ inputs, ∀ b, eligibleFilename i.filename = true → i.outcome = .ok b →
      mkOkEntry i.filename b ∈ (batch_verification inputs).entries) := by
  obtain ⟨h1, h2, h3⟩ := batch_loop_spec inputs
  refine ⟨h1, h2, h3, fun f e => ⟨rfl, rfl, rfl⟩, ?_, ?_⟩
  · intro i hi e hel ho
    have hmem : mkErrorEntry i.filename e ∈ (batch_loop inputs).entries := by
      rw [h1]
      exact List.mem_filterMap.mpr ⟨i, hi, by simp [processFile, hel, ho]⟩
    show mkErrorEntry i.filename e ∈ sortByScoreDesc (batch_loop inputs).entries
    exact (sortByScoreDesc_perm _).mem_iff.mpr hmem
  · intro i hi b hel ho
    have hmem : mkOkEntry i.filename b ∈ (batch_loop inputs).entries := by
      rw [h1]
      exact List.mem_filterMap.mpr ⟨i, hi, by simp [processFile, hel, ho]⟩
    show mkOkEntry i.filename b ∈ sortByScoreDesc (batch_loop inputs).entries
    exact (sortByScoreDesc_perm _).mem_iff.mpr hmem

/-- A concrete batch: one successful file, one failing file, one file skipped
by the extension filter. -/
def exBatchInputs : List BatchInput :=
  [⟨"good.txt", .ok exBundleC3⟩,
   ⟨"bad.txt", .error "extraction failed"⟩,
   ⟨"skip.exe", .error "ignored"⟩]

/-- Instantiation of `c8_batch_failures_isolated` at a concrete batch. -/
theorem c8_witness :
    mkErrorEntry "bad.txt" "extraction failed" ∈
      (batch_verification exBatchInputs).entries :=
  (c8_batch_failures_isolated exBatchInputs).2.2.2.2.1
    ⟨"bad.txt", .error "extraction failed"⟩ (by simp [exBatchInputs])
    "extraction failed" (by decide) rfl

/-! ## Claim C9 -/

lemma lookupD_dictSet_ne (d : List (String × PyVal)) (k k' : String) (v : PyVal)
    (h : k ≠ k') : lookupD (dictSet d k v) k' = lookupD d k' := by
  induction d with
  | nil => simp [dictSet, lookupD, h]
  | cons p rest ih =>
    obtain ⟨pk, pv⟩ := p
    by_cases hpk : pk = k
    · subst hpk
      simp [dictSet, lookupD, h]
    · by_cases hpk' : pk = k' <;> simp [dictSet, lookupD, hpk, hpk', ih, Ne.symm h]

lemma lookupD_dictAppend_ne (d : List (String × PyVal)) (k : String) (x : PyVal)
    (k' : String) (h : k ≠ k') :
    lookupD (dictAppend d k x) k' = lookupD d k' := by
  unfold dictAppend
  cases lookupD d k <;>
    first
      | rfl
      | exact lookupD_dictSet_ne _ _ _ _ h

lemma lookupD_analyze_untouched (results : List (String × PyVal)) (k : String)
    (h1 : k ≠ "red_flags") (h2 : k ≠ "warnings")
    (h3 : k ≠ "osint_recommendations") (h4 : k ≠ "presence_score")
    (h5 : k ≠ "presence_level") :
    lookupD (analyze_presence_results results) k = lookupD results k := by
  simp only [analyze_presence_results]
  rw [lookupD_dictSet_ne _ _ _ _ (Ne.symm h5), lookupD_dictSet_ne _ _ _ _ (Ne.symm h4),
    lookupD_dictSet_ne _ _ _ _ (Ne.symm h3)]
  split_ifs <;>
    (repeat
      first
        | rw [lookupD_dictAppend_ne _ _ _ _ (Ne.symm h1)]
        | rw [lookupD_dictAppend_ne _ _ _ _ (Ne.symm h2)]) <;>
    rfl

/-- C9: whatever the candidate info and the six per-field check results,
`verify_presence` never sets the keys `has_linkedin`, `has_github`,
`has_google_presence` or `email_suspicious` that
`calculate_comprehensive_risk` reads, so the online-presence sub-score inside
`calculate_comprehensive_risk` is the constant 80, contributing
80 × 0.3 = 24 to the blended score independently of the candidate's actual
findings. -/
theorem c9_presence_subscore_constant_80
    (info emailC phoneC linkedinC githubC googleC breachesC : PyVal) :
    lookupD (verify_presence info emailC phoneC linkedinC githubC googleC breachesC)
        "has_linkedin" = PyVal.none ∧
    lookupD (verify_presence info emailC phoneC linkedinC githubC googleC breachesC)
        "has_github" = PyVal.none ∧
    lookupD (verify_presence info emailC phoneC linkedinC githubC googleC breachesC)
        "has_google_presence" = PyVal.none ∧
    lookupD (verify_presence info emailC phoneC linkedinC githubC googleC breachesC)
        "email_suspicious" = PyVal.none ∧
    presence_subscore
        (verify_presence info emailC phoneC linkedinC githubC googleC breachesC) = 80 ∧
    presence_subscore
        (verify_presence info emailC phoneC linkedinC githubC googleC breachesC)
        * (3 / 10) = 24 := by
  have base : ∀ k : String, k ≠ "red_flags" → k ≠ "warnings" →
      k ≠ "osint_recommendations" → k ≠ "presence_score" → k ≠ "presence_level" →
      lookupD (verify_presence info emailC phoneC linkedinC githubC googleC breachesC) k
        = lookupD
          [("candidate_info", info),
           ("checks", .dict [("email", emailC), ("phone", phoneC),
             ("linkedin", linkedinC), ("github", githubC), ("google", googleC),
             ("data_breaches", breachesC)]),
           ("red_flags", .list []), ("warnings", .list []),
           ("osint_recommendations", .list [])] k := by
    intro k hk1 hk2 hk3 hk4 hk5
    exact lookupD_analyze_untouched _ k hk1 hk2 hk3 hk4 hk5
  have hA : lookupD (verify_presence info emailC phoneC linkedinC githubC googleC
      breachesC) "has_linkedin" = PyVal.none := by
    rw [base _ (by decide) (by decide) (by decide) (by decide) (by decide)]
    simp [lookupD]
  have hB : lookupD (verify_presence info emailC phoneC linkedinC githubC googleC
      breachesC) "has_github" = PyVal.none := by
    rw [base _ (by decide) (by decide) (by decide) (by decide) (by decide)]
    simp [lookupD]
  have hC : lookupD (verify_presence info emailC phoneC linkedinC githubC googleC
      breachesC) "has_google_presence" = PyVal.none := by
    rw [base _ (by decide) (by decide) (by decide) (by decide) (by decide)]
    simp [lookupD]
  have hD : lookupD (verify_presence info emailC phoneC linkedinC githubC googleC
      breachesC) "email_suspicious" = PyVal.none := by
    rw [base _ (by decide) (by decide) (by decide) (by decide) (by decide)]
    simp [lookupD]
  have hS : presence_subscore
      (verify_presence info emailC phoneC linkedinC githubC googleC breachesC) = 80 := by
    unfold presence_subscore
    rw [hA, hB, hC, hD]
    norm_num [truthy]
  exact ⟨hA, hB, hC, hD, hS, by rw [hS]; norm_num⟩

/-! ## Claim C10 -/

lemma patternContribution_nonneg (m : ℕ) : 0 ≤ patternContribution m := by
  unfold patternContribution
  split_ifs <;> norm_num

/-- C10: a text with fewer than 50 word tokens gets vocabulary-diversity
score 0 from `_check_vocabulary_diversity`, and since `0 < 0.35` the
confidence calculation adds the full 15-point extreme-diversity contribution:
whatever the other sub-check results (the uniformity score being
non-negative, as `_check_sentence_uniformity` guarantees), the resulting
AI confidence is at least 0.15. -/
theorem c10_short_text_gets_diversity_points (t : List Char) (matchCount : ℕ)
    (uniformity : ℝ) (grammarPerfect repetitive lacksPersonality : Bool)
    (hu : 0 ≤ uniformity)
    (hlen : (wordTokensLower t).length < 50) :
    vocab_diversity t = 0 ∧
      (15 / 100 : ℝ) ≤ calculate_confidence matchCount uniformity (vocab_diversity t)
        grammarPerfect repetitive lacksPersonality := by
  have hv : vocab_diversity t = 0 := by
    unfold vocab_diversity
    rw [if_pos hlen]
  refine ⟨hv, ?_⟩
  rw [hv]
  unfold calculate_confidence
  refine le_min ?_ (by norm_num)
  have hpts : (15 : ℝ) ≤ confidencePoints matchCount uniformity 0 grammarPerfect
      repetitive lacksPersonality := by
    unfold confidencePoints
    have h15 : (if (0 : ℚ) > 3 / 4 ∨ (0 : ℚ) < 7 / 20 then (15 : ℝ) else 0) = 15 := by
      norm_num
    rw [h15]
    have hpat : (0 : ℝ) ≤ (patternContribution matchCount : ℝ) := by
      exact_mod_cast patternContribution_nonneg matchCount
    have hu20 : (0 : ℝ) ≤ uniformity * 20 := mul_nonneg hu (by norm_num)
    split_ifs <;> linarith
  linarith

/-- A 13-word text, below the 50-word vocabulary threshold. -/
def exShortText : List Char :=
  "Results-driven engineer with extensive experience in cloud infrastructure and modern devops tooling at scale".toList

/-- Instantiation of `c10_short_text_gets_diversity_points` at a concrete
short text. -/
theorem c10_witness :
    vocab_diversity exShortText = 0 ∧
      (15 / 100 : ℝ) ≤ calculate_confidence 0 0 (vocab_diversity exShortText)
        false false false :=
  c10_short_text_gets_diversity_points exShortText 0 0 false false false le_rfl
    (by decide)

/-! ## Claim C7 -/

/-- Counterexample text for C7: four bullet sentences starting with the
action verb "developed" and one 12-word sentence.  Qualifying word counts
are [2,2,2,2,12]: variance 16, standard deviation 4. -/
def exC7Text : List Char :=
  ("- developed.\n- developed.\n- developed.\n- developed.\na a a a a a a a a a a abc.").toList

lemma exC7_counts : sentenceWordCounts exC7Text = [2, 2, 2, 2, 12] := by decide

lemma exC7_bullets :
    bulletFirstWords exC7Text =
      ["developed".toList, "developed".toList, "developed".toList,
       "developed".toList] := by decide

lemma exC7_variance : varianceQ [2, 2, 2, 2, 12] = 16 := by
  norm_num [varianceQ, meanQ]

lemma exC7_sqrt : Real.sqrt ((16 : ℚ) : ℝ) = 4 := by
  rw [show ((16 : ℚ) : ℝ) = (4 : ℝ) ^ 2 by norm_num,
    Real.sqrt_sq (by norm_num : (0 : ℝ) ≤ 4)]

lemma exC7_filter :
    ((["developed".toList, "developed".toList, "developed".toList,
        "developed".toList]).filter
      (fun b => actionVerbs.contains (lowerText b))).length = 4 := by decide

lemma c7_code_value : uniformity_score exC7Text = 8 / 10 := by
  simp only [uniformity_score]
  rw [exC7_counts, exC7_bullets, exC7_variance, exC7_sqrt]
  rw [if_neg (by norm_num)]
  rw [exC7_filter]
  rw [if_pos (by norm_num)]
  rw [if_pos ⟨by norm_num, by norm_num⟩]
  rw [show max (0 : ℝ) (1 - 4 / 10) = 6 / 10 by norm_num [max_def]]
  rw [show max (6 / 10 : ℝ) (8 / 10) = 8 / 10 by norm_num [max_def]]
  unfold round2R
  rw [show (⌊(8 / 10 : ℝ) * 100 + 1 / 2⌋ : ℤ) = 80 by
    rw [Int.floor_eq_iff] <;> norm_num]
  norm_num

lemma c7_claimed_value : uniformityClaimedC7 exC7Text = 6 / 10 := by
  simp only [uniformityClaimedC7]
  rw [exC7_counts, exC7_variance, exC7_sqrt]
  rw [if_neg (by norm_num)]
  norm_num [max_def]

/-- C7 is false as stated: on `exC7Text` the code's sentence-uniformity
sub-score is 0.8 — `_check_sentence_uniformity` raises the uniformity to 0.8
because more than 90% of the (more than 3) bullet lines start with an action
verb — while the claimed formula max(0, 1 − stddev/10) yields 0.6. -/
theorem c7_counterexample :
    uniformity_score exC7Text = 8 / 10 ∧
    uniformityClaimedC7 exC7Text = 6 / 10 ∧
    uniformity_score exC7Text ≠ uniformityClaimedC7 exC7Text := by
  constructor
  · exact c7_code_value
  constructor
  · exact c7_claimed_value
  · rw [c7_code_value, c7_claimed_value]; norm_num

/-- C7 as amended: the sentence-uniformity sub-score is computed by splitting
on sentence terminators, keeping sentences longer than 10 characters and
taking max(0, 1 − stddev(word counts)/10) — except that when the text has
more than 3 bullet lines of which more than 90% start with a known action
verb the uniformity is raised to at least 0.8, and the reported score is the
result rounded to two decimal places; it is 0 whenever fewer than 5
qualifying sentences exist, and it contributes uniformity × 20 points to the
confidence sum of `_calculate_confidence`. -/
theorem c7_amended_uniformity (t : List Char) :
    uniformity_score t = uniformityAmendedC7 t ∧
    (∀ (matchCount : ℕ) (u : ℝ) (v : ℚ) (g r p : Bool),
      confidencePoints matchCount u v g r p =
        confidencePoints matchCount 0 v g r p + u * 20) := by
  constructor
  · simp only [uniformity_score, uniformityAmendedC7]
    by_cases hlen : (sentenceWordCounts t).length < 5
    · simp [hlen]
    · simp only [if_neg hlen]
      by_cases hb : (bulletFirstWords t).isEmpty
      · have hnil : bulletFirstWords t = [] := by
          cases hbl : bulletFirstWords t with
          | nil => rfl
          | cons a l => rw [hbl] at hb; simp at hb
        simp [hnil, bulletOverride]
      · have hb' : (!(bulletFirstWords t).isEmpty) = true := by
          simp [Bool.not_eq_true] at hb
          simp [hb]
        by_cases hcond : (3 < (bulletFirstWords t).length ∧
            (((bulletFirstWords t).filter
              (fun b => actionVerbs.contains (lowerText b))).length : ℚ)
              / ((bulletFirstWords t).length : ℚ) > 9 / 10)
        · have hov : bulletOverride t = true := by
            simp only [bulletOverride]
            rw [decide_eq_true hcond.1, decide_eq_true hcond.2]
            rfl
          rw [if_pos hb', if_pos hcond, if_pos hov]
        · have hov : ¬(bulletOverride t = true) := by
            simp only [bulletOverride]
            by_cases h3 : 3 < (bulletFirstWords t).length
            · have hr : ¬((((bulletFirstWords t).filter
                  (fun b => actionVerbs.contains (lowerText b))).length : ℚ)
                    / ((bulletFirstWords t).length : ℚ) > 9 / 10) :=
                fun hr => hcond ⟨h3, hr⟩
              rw [decide_eq_true h3, decide_eq_false hr]
              simp
            · rw [decide_eq_false h3]
              simp
          rw [if_pos hb', if_neg hcond, if_neg hov]
  · intro matchCount u v g r p
    unfold confidencePoints
    ring

/-- Instantiation of `c5_comprehensive_blend` with no LinkedIn signals. -/
theorem c5_witness :
    calculate_comprehensive_risk exCompC3 =
      min (((if exCompC3.resume_ai.is_ai_generated then
              30 * exCompC3.resume_ai.confidence else 0)
          + 10 * (exCompC3.resume_red_flags.critical.length : ℚ)
          + 5 * (exCompC3.resume_red_flags.warning.length : ℚ)) * (4 / 10)
        + presence_subscore exCompC3.presence * (3 / 10)) 100 :=
  (c5_comprehensive_blend exCompC3).2 rfl

end CandidateCheck
